import Mathlib

/-!
Verification of the Gronskys Alexa skill handler (`lambda_function.py`).

The development shallowly embeds the Python module:

* Python string operations (`in`, `.upper()`, `.strip()`, `.capitalize()`)
  become executable functions on `String` / `List Char`.
* The BeautifulSoup document is a list of elements, each with a tag name, a
  class-attribute string and a text; `find_all` / `find` become list filters.
  Attribute matching is modelled as exact equality on the class string,
  preserving the trailing space of the marker in the source
  (`"av-special-heading-tag "`).
* Python exceptions (`NameError`, `ValueError`, `AttributeError` from
  `None.text`) become the error side of `Except`.
* `pancake_of_the_month` is factored into the outcome-producing core
  (`extract_outcome`, lines 177-198 of the source) and the speech rendering
  (`renderOutcome`, lines 191-200); their composition is the handler.
* `datetime.now().strftime(chr 37 ++ "B").upper()` and the fetched page are
  inputs of the embedding: every function that depends on them takes the
  document and the uppercased current-month token as parameters.
-/

namespace Gronskys

/-! ## Python string primitives -/

/-- Tests whether the first list starts with the second (pattern) list. -/
def listStartsWith : List Char → List Char → Bool
  | _, [] => true
  | [], _ :: _ => false
  | c :: cs, d :: ds => c == d && listStartsWith cs ds

/-- Python substring test `s in t` on character lists: does `s` occur
contiguously inside `t`? -/
def listContainsSub : List Char → List Char → Bool
  | [], s => listStartsWith [] s
  | c :: ts, s => listStartsWith (c :: ts) s || listContainsSub ts s

/-- Python `pat in haystack` on strings. -/
def strContains (haystack pat : String) : Bool :=
  listContainsSub haystack.data pat.data

/-- Python `str.upper()` (ASCII-faithful). -/
def pyUpper (s : String) : String := String.mk (s.data.map Char.toUpper)

/-- Drops leading whitespace characters from a character list. -/
def dropLeadingWS : List Char → List Char
  | [] => []
  | c :: cs => if c.isWhitespace then dropLeadingWS cs else c :: cs

/-- Python `str.strip()`: removes leading and trailing whitespace. -/
def pyStrip (s : String) : String :=
  String.mk ((dropLeadingWS (dropLeadingWS s.data).reverse).reverse)

/-- Python `str.capitalize()`: first character uppercased, the rest
lowercased. -/
def pyCapitalize (s : String) : String :=
  match s.data with
  | [] => ""
  | c :: cs => String.mk (c.toUpper :: cs.map Char.toLower)

/-! ## Document model (BeautifulSoup) -/

/-- Python exceptions that the module can raise on the paths the claims
cover. -/
inductive PyError
  | nameError
  | valueError
  | attributeError
deriving DecidableEq

/-- One HTML element of the fetched page: tag name, class-attribute string,
and text content. -/
structure Element where
  tag : String
  className : String
  text : String
deriving DecidableEq

/-- The parsed page, in document order. -/
abbrev Document := List Element

/-- `soup.find_all("h2", \x7b"class": "av-special-heading-tag "\x7d)`
(source line 182): all h2 elements carrying the first structural marker, in
document order.  Note the trailing space in the class value, exactly as in
the source. -/
def findAllHeadings (doc : Document) : List Element :=
  doc.filter (fun e => e.tag == "h2" && e.className == "av-special-heading-tag ")

/-- `soup.find("div", \x7b"class": "av-subheading"\x7d)` (source line 190):
the first div carrying the second structural marker anywhere in the
document, `none` when absent (Python `None`). -/
def findSubheading (doc : Document) : Option Element :=
  List.find? (fun e => e.tag == "div" && e.className == "av-subheading") doc

/-! ## The freshness-checked extractor core (source lines 177-198) -/

/-- The per-heading test of source line 183:
`current_month in heading.text.upper()`. -/
def matchesToken (token : String) (h : Element) : Bool :=
  strContains (pyUpper h.text) token

/-- The loop of source lines 178-184: `correct_month` starts `False` and is
set to `True` whenever a heading matches; the loop never breaks. -/
def correctMonth (doc : Document) (token : String) : Bool :=
  (findAllHeadings doc).foldl
    (fun acc h => if matchesToken token h then true else acc) false

/-- The outcome of the extraction core: either the pancake value paired with
the period token, or the stale fallback. -/
inductive Outcome
  | success (value : String) (period : String)
  | stale
deriving DecidableEq

/-- The core of `pancake_of_the_month`, source lines 177-198: if
`correct_month`, take the first subheading div of the whole document and
strip its text (line 190; when that div is absent, Python evaluates
`None.text` and raises `AttributeError`); otherwise the stale fallback. -/
def extract_outcome (doc : Document) (token : String) : Except PyError Outcome :=
  if correctMonth doc token then
    match findSubheading doc with
    | some e => .ok (.success (pyStrip e.text) token)
    | none => .error .attributeError
  else
    .ok .stale

/-- Call-to-action suffix appended at source line 200. -/
def ctaSuffix : String :=
  "To hear more information about Gronsky\x27s, say \x27Tell me about Gronsky\x27s\x27. Otherwise, say \x27Stop\x27 to quit."

/-- Speech rendering of the outcome, source lines 191-200. -/
def renderOutcome : Outcome → String
  | .success value period =>
      "The pancake of the month for " ++ pyCapitalize period ++ " is "
        ++ value ++ ". " ++ ctaSuffix
  | .stale =>
      "Sorry, but the pancake of the month isn\x27t available yet! Try again at a later time. "
        ++ ctaSuffix

/-! ## Alexa response envelope (source lines 19-74) -/

/-- The speechlet part built by `build_speechlet_response`: plain-text output
speech and the end-session flag. -/
structure SpeechletResponse where
  outputSpeech : String
  shouldEndSession : Bool
deriving DecidableEq

/-- The full envelope built by `build_response`. -/
structure AlexaResponse where
  version : String
  sessionAttributes : List (String × String)
  response : SpeechletResponse
deriving DecidableEq

/-- Source lines 19-49. -/
def build_speechlet_response (output : String) (should_end_session : Bool) :
    SpeechletResponse :=
  { outputSpeech := output, shouldEndSession := should_end_session }

/-- Source lines 52-74. -/
def build_response (session_attributes : List (String × String))
    (speechlet_response : SpeechletResponse) : AlexaResponse :=
  { version := "1.0", sessionAttributes := session_attributes,
    response := speechlet_response }

/-- Source lines 81-102 (`session_attributes = \x7b\x7d`,
`should_end_session = False`; the reprompt text is computed but unused by the
source and is omitted). -/
def get_welcome_response : AlexaResponse :=
  build_response []
    (build_speechlet_response
      "Welcome to the Gronsky\x27s Alexa skill! To hear some information about Gronsky\x27s, say \x27Tell me about Gronsky\x27s.\x27 To hear Gronsky\x27s pancake of the month, say \x27Pancake of the Month\x27."
      false)

/-- Source lines 105-127. -/
def get_help_response : AlexaResponse :=
  build_response []
    (build_speechlet_response
      "Hello! This skill will tell you information about Gronsky\x27s, a restaurant located in High Bridge, NJ. To hear some information about Gronsky\x27s, say \x27Tell me about Gronsky\x27s.\x27 To hear Gronsky\x27s pancake of the month, say \x27Pancake of the Month\x27."
      false)

/-- Source lines 130-141: the only builder that passes
`should_end_session = True`. -/
def handle_session_end_request : AlexaResponse :=
  build_response []
    (build_speechlet_response
      "Thanks for using the Gronsky\x27s Alexa skill! Hope you visit us soon! Goodbye!"
      true)

/-- Source lines 147-206: the full handler is the extraction core followed by
rendering, wrapped in the envelope with empty attributes and
`should_end_session = False`; an exception of the core propagates. -/
def pancake_of_the_month (doc : Document) (token : String) :
    Except PyError AlexaResponse :=
  (extract_outcome doc token).map
    (fun o => build_response [] (build_speechlet_response (renderOutcome o) false))

/-- Source lines 209-222. -/
def about_gronskys : AlexaResponse :=
  build_response []
    (build_speechlet_response
      ("Gronsky\x27s Milk House is a family-owned ice cream store and restaurant located at 125 West Main Street in High Bridge, New Jersey. It was founded in 1978 by Jackie and Steve Gronsky. Originally a small convenience and ice cream store, Gronsky’s added a restaurant in 1988 to serve breakfast and lunch. "
        ++ "To hear Gronsky\x27s pancake of the month, say \x27Pancake of the Month\x27. Otherwise, say \x27Stop\x27 to quit.")
      false)

/-! ## Dispatcher (source lines 229-302) -/

/-- Source lines 229-261: the string-equality chain over the intent name;
an unrecognized name raises `ValueError` (line 257).  The analytics call
`vi.track` after the chain is a side channel that does not affect the
returned response and is not modelled. -/
def on_intent (intent_name : String) (doc : Document) (token : String) :
    Except PyError AlexaResponse :=
  if intent_name == "AMAZON.HelpIntent" then
    .ok get_help_response
  else if intent_name == "AMAZON.CancelIntent" || intent_name == "AMAZON.StopIntent" then
    .ok handle_session_end_request
  else if intent_name == "AboutGronskys" then
    .ok about_gronskys
  else if intent_name == "PancakeOfTheMonth" then
    pancake_of_the_month doc token
  else
    .error .valueError

/-- The names bound at module level by `lambda_function.py`: the imports
(lines 1-7), the three top-level assignments (lines 10-14) and the defined
functions.  `appToken` is not among them, and it is not a Python builtin and
not a local of `on_session_started`. -/
def moduleGlobals : List String :=
  ["print_function", "json", "requests", "datetime", "BeautifulSoup",
   "VoiceInsights", "configparser", "config", "vi_appToken", "vi",
   "build_speechlet_response", "build_response", "get_welcome_response",
   "get_help_response", "handle_session_end_request", "pancake_of_the_month",
   "about_gronskys", "on_intent", "on_session_started", "on_launch",
   "on_session_ended", "lambda_handler"]

/-- Source lines 267-270: after the logging print, line 270 evaluates the
name `appToken`; Python name resolution over the module globals fails (the
configuration value is bound to `vi_appToken` at line 13), raising
`NameError`. -/
def on_session_started : Except PyError Unit :=
  if moduleGlobals.contains "appToken" then .ok () else .error .nameError

/-- Source lines 272-278. -/
def on_launch : AlexaResponse := get_welcome_response

/-- Source lines 280-282: only logs; falls off the end, returning `None`. -/
def on_session_ended : Option AlexaResponse := none

/-- The session object of the incoming event; only the `new` flag influences
control flow (the ids are logging-only). -/
structure Session where
  new : Bool
  sessionId : String
  applicationId : String
deriving DecidableEq

/-- The request object of the incoming event.  `intentName` models
`request["intent"]["name"]` and is consulted only on the IntentRequest
path. -/
structure Request where
  type : String
  requestId : String
  intentName : String
deriving DecidableEq

/-- An incoming Alexa event. -/
structure Event where
  session : Session
  request : Request
deriving DecidableEq

/-- Source lines 288-301: run `on_session_started` when the session is new
(an exception there propagates and aborts the handler), then dispatch on the
request type; a `SessionEndedRequest` returns `on_session_ended` (which is
`None`), and any other unrecognized type falls off the end of the function,
also returning `None`. -/
def lambda_handler (event : Event) (doc : Document) (token : String) :
    Except PyError (Option AlexaResponse) :=
  match (if event.session.new then on_session_started else .ok ()) with
  | .error e => .error e
  | .ok _ =>
    if event.request.type == "LaunchRequest" then
      .ok (some on_launch)
    else if event.request.type == "IntentRequest" then
      (on_intent event.request.intentName doc token).map some
    else if event.request.type == "SessionEndedRequest" then
      .ok on_session_ended
    else
      .ok none

/-! ## Spec-side definition for the tie-break claim -/

/-- Modelled from the spec: step 5 of the extraction algorithm of §4.1 —
"locate a single sibling/descendant element matching a second structural
marker" relative to the FIRST matching heading, i.e. the first subheading
div that occurs after the first matching heading in document order.  This
definition follows the spec words; the source instead takes the first
subheading div of the whole document. -/
def specAssociatedSubheading (doc : Document) (token : String) : Option Element :=
  match doc.dropWhile
      (fun e => !(e.tag == "h2" && e.className == "av-special-heading-tag "
                   && matchesToken token e)) with
  | [] => none
  | _ :: rest =>
      List.find? (fun e => e.tag == "div" && e.className == "av-subheading") rest

/-! ## Helper lemmas -/

theorem listStartsWith_iff (s t : List Char) :
    listStartsWith t s = true ↔ ∃ post, t = s ++ post := by
  induction s generalizing t with
  | nil => simp [listStartsWith]
  | cons d ds ih =>
    cases t with
    | nil => simp [listStartsWith]
    | cons c cs =>
      simp only [listStartsWith, Bool.and_eq_true, beq_iff_eq, ih, List.cons_append,
        List.cons.injEq]
      constructor
      · rintro ⟨rfl, post, rfl⟩
        exact ⟨post, rfl, rfl⟩
      · rintro ⟨post, rfl, rfl⟩
        exact ⟨rfl, post, rfl⟩

theorem listContainsSub_iff (t s : List Char) :
    listContainsSub t s = true ↔ ∃ pre post, t = pre ++ s ++ post := by
  induction t with
  | nil =>
    simp only [listContainsSub, listStartsWith_iff]
    constructor
    · rintro ⟨post, h⟩
      exact ⟨[], post, by simpa using h⟩
    · rintro ⟨pre, post, h⟩
      simp only [List.nil_eq, List.append_eq_nil] at h
      obtain ⟨⟨rfl, rfl⟩, rfl⟩ := h
      exact ⟨[], rfl⟩
  | cons c ts ih =>
    simp only [listContainsSub, Bool.or_eq_true, listStartsWith_iff, ih]
    constructor
    · rintro (⟨post, h⟩ | ⟨pre, post, rfl⟩)
      · exact ⟨[], post, by simpa using h⟩
      · exact ⟨c :: pre, post, rfl⟩
    · rintro ⟨pre, post, h⟩
      cases pre with
      | nil => exact Or.inl ⟨post, by simpa using h⟩
      | cons p ps =>
        simp only [List.cons_append, List.cons.injEq] at h
        exact Or.inr ⟨ps, post, h.2⟩

theorem strContains_iff (haystack pat : String) :
    strContains haystack pat = true ↔
      ∃ pre post, haystack.data = pre ++ pat.data ++ post := by
  exact listContainsSub_iff haystack.data pat.data

theorem foldl_flag_eq_any (p : Element → Bool) (l : List Element) (b : Bool) :
    l.foldl (fun acc h => if p h then true else acc) b = (b || l.any p) := by
  induction l generalizing b with
  | nil => simp
  | cons x xs ih =>
    rw [List.foldl_cons, List.any_cons]
    cases hx : p x with
    | false => simpa [hx] using ih b
    | true =>
      have hacc : (if true = true then true else b) = true := rfl
      rw [hacc, ih true]
      simp

theorem correctMonth_eq_any (doc : Document) (token : String) :
    correctMonth doc token = (findAllHeadings doc).any (matchesToken token) := by
  unfold correctMonth
  rw [foldl_flag_eq_any]
  simp

theorem on_session_started_eq : on_session_started = .error .nameError := by
  have h : moduleGlobals.contains "appToken" = false := by decide
  unfold on_session_started
  simp only [h, Bool.false_eq_true, if_false]

theorem lambda_handler_new_session (event : Event) (doc : Document) (token : String)
    (h : event.session.new = true) :
    lambda_handler event doc token = .error .nameError := by
  unfold lambda_handler
  rw [h, if_pos rfl, on_session_started_eq]

theorem lambda_handler_not_new (event : Event) (doc : Document) (token : String)
    (h : event.session.new = false) :
    lambda_handler event doc token =
      (if event.request.type == "LaunchRequest" then
        .ok (some on_launch)
      else if event.request.type == "IntentRequest" then
        (on_intent event.request.intentName doc token).map some
      else if event.request.type == "SessionEndedRequest" then
        .ok on_session_ended
      else
        .ok none) := by
  unfold lambda_handler
  rw [h]
  rfl

/-! ## Concrete documents and events used by witnesses and counterexamples -/

/-- A page whose headings name other months only (the example of the spec,
§8 bullet 1). -/
def docStale : Document :=
  [⟨"h2", "av-special-heading-tag ", "JANUARY SPECIAL"⟩,
   ⟨"h2", "av-special-heading-tag ", "FEBRUARY FEATURE"⟩]

/-- The example page of the spec, §8 bullet 2: one matching heading followed
by one subheading with padded text. -/
def docMarch : Document :=
  [⟨"h2", "av-special-heading-tag ", "March Pancake"⟩,
   ⟨"div", "av-subheading", "  Blueberry Delight  "⟩]

/-- A page with two headings containing the token, each followed by its own
subheading, and an earlier non-matching section whose subheading comes first
in document order. -/
def docTie : Document :=
  [⟨"h2", "av-special-heading-tag ", "JANUARY"⟩,
   ⟨"div", "av-subheading", "Plain"⟩,
   ⟨"h2", "av-special-heading-tag ", "MARCH"⟩,
   ⟨"div", "av-subheading", "Blueberry"⟩,
   ⟨"h2", "av-special-heading-tag ", "MARCH MADNESS"⟩,
   ⟨"div", "av-subheading", "Chocolate"⟩]

/-- A page with a matching heading but no subheading div at all. -/
def docNoSub : Document :=
  [⟨"h2", "av-special-heading-tag ", "MARCH"⟩]

/-- A launch event arriving on a new session. -/
def eventNewSession : Event :=
  ⟨⟨true, "sid-1", "app-1"⟩, ⟨"LaunchRequest", "rid-1", ""⟩⟩

/-- A session-end event arriving on a new session. -/
def eventEndedNew : Event :=
  ⟨⟨true, "sid-2", "app-2"⟩, ⟨"SessionEndedRequest", "rid-2", ""⟩⟩

/-- A session-end event on an existing session. -/
def eventEnded : Event :=
  ⟨⟨false, "sid-3", "app-3"⟩, ⟨"SessionEndedRequest", "rid-3", ""⟩⟩

/-! ## The claims -/

/-- C1.  Freshness invariant: for every fetched document and period token,
the extractor returns a Success value only when at least one heading
candidate's text contains the period token (case-insensitive substring test,
i.e. `matchesToken`); whenever no heading text contains the token, the
outcome is the stale fallback, never a Success carrying a value. -/
theorem C1_freshness_invariant (doc : Document) (token : String) :
    ((∀ x ∈ findAllHeadings doc, matchesToken token x = false) →
      extract_outcome doc token = .ok .stale) ∧
    (∀ v p, extract_outcome doc token = .ok (.success v p) →
      ∃ x ∈ findAllHeadings doc, matchesToken token x = true) := by
  constructor
  · intro h
    have hany : (findAllHeadings doc).any (matchesToken token) = false := by
      rw [List.any_eq_false]
      intro x hx
      simp [h x hx]
    unfold extract_outcome
    rw [correctMonth_eq_any, hany]
    simp
  · intro v p hvp
    by_contra hno
    have hany : (findAllHeadings doc).any (matchesToken token) = false := by
      rw [List.any_eq_false]
      intro x hx hpx
      exact hno ⟨x, hx, hpx⟩
    unfold extract_outcome at hvp
    rw [correctMonth_eq_any, hany] at hvp
    simp at hvp

/-- C1 witness: on the stale example page the extractor returns the stale
outcome. -/
theorem C1_witness : extract_outcome docStale "MARCH" = .ok .stale :=
  (C1_freshness_invariant docStale "MARCH").1 (by decide)

/-- C2.  Every incoming event whose session is marked new makes
`lambda_handler` fail with the undefined-name error (`appToken` is never
bound; the configuration value is bound to `vi_appToken`), before any
response is produced: the result is the propagated `NameError`, not an
envelope. -/
theorem C2_new_session_name_error (event : Event) (doc : Document)
    (token : String) (h : event.session.new = true) :
    lambda_handler event doc token = .error .nameError :=
  lambda_handler_new_session event doc token h

/-- C2 witness: a concrete new-session launch event yields the name error. -/
theorem C2_witness : lambda_handler eventNewSession [] "MARCH" = .error .nameError :=
  C2_new_session_name_error eventNewSession [] "MARCH" rfl

/-- C3 counterexample: on a page where two headings contain the token
"MARCH", the first matching heading's associated subheading (spec reading,
`specAssociatedSubheading`) is "Blueberry", but the code extracts "Plain" —
the first subheading div of the whole document, which belongs to the earlier
non-matching JANUARY section.  So the claim that the extracted value is the
text of the subheading associated with the first matching heading is false
on the code. -/
theorem C3_counterexample :
    2 ≤ ((findAllHeadings docTie).filter (matchesToken "MARCH")).length ∧
    (specAssociatedSubheading docTie "MARCH").map (fun e => pyStrip e.text)
      = some "Blueberry" ∧
    extract_outcome docTie "MARCH" = .ok (.success "Plain" "MARCH") ∧
    Outcome.success "Plain" "MARCH" ≠ Outcome.success "Blueberry" "MARCH" :=
  ⟨by decide, by decide, rfl, by decide⟩

/-- C3 amended: when two or more headings contain the period token, the
match test succeeds (it is existential over all headings, so equivalent to
first-match for the outcome), and the extracted value is the trimmed text of
the FIRST element matching the subheading marker in the whole document, in
document order — not of a subheading associated with the first matching
heading. -/
theorem C3_amended_first_doc_subheading (doc : Document) (token : String)
    (e : Element)
    (h2 : 2 ≤ ((findAllHeadings doc).filter (matchesToken token)).length)
    (hsub : findSubheading doc = some e) :
    extract_outcome doc token = .ok (.success (pyStrip e.text) token) := by
  have hpos : 0 < ((findAllHeadings doc).filter (matchesToken token)).length := by
    omega
  obtain ⟨x, hx⟩ := List.exists_mem_of_length_pos hpos
  obtain ⟨hxl, hpx⟩ := List.mem_filter.mp hx
  have hany : (findAllHeadings doc).any (matchesToken token) = true :=
    List.any_eq_true.mpr ⟨x, hxl, hpx⟩
  unfold extract_outcome
  rw [correctMonth_eq_any, hany, if_pos rfl, hsub]

/-- C3 witness for the amended statement, on the two-match page. -/
theorem C3_witness :
    extract_outcome docTie "MARCH" = .ok (.success (pyStrip "Plain") "MARCH") :=
  C3_amended_first_doc_subheading docTie "MARCH" ⟨"div", "av-subheading", "Plain"⟩
    (by decide) (by decide)

/-- C4.  Success postcondition: when exactly one heading contains the period
token and a subheading element exists (the extracted one being the first
subheading div in document order, which the source's `soup.find` selects),
the result is Success carrying that subheading's text stripped of
surrounding whitespace and otherwise verbatim, paired with the period
token. -/
theorem C4_success_postcondition (doc : Document) (token : String)
    (e : Element)
    (h1 : ((findAllHeadings doc).filter (matchesToken token)).length = 1)
    (hsub : findSubheading doc = some e) :
    extract_outcome doc token = .ok (.success (pyStrip e.text) token) := by
  have hpos : 0 < ((findAllHeadings doc).filter (matchesToken token)).length := by
    omega
  obtain ⟨x, hx⟩ := List.exists_mem_of_length_pos hpos
  obtain ⟨hxl, hpx⟩ := List.mem_filter.mp hx
  have hany : (findAllHeadings doc).any (matchesToken token) = true :=
    List.any_eq_true.mpr ⟨x, hxl, hpx⟩
  unfold extract_outcome
  rw [correctMonth_eq_any, hany, if_pos rfl, hsub]

/-- C4 witness: the spec's own example — heading "March Pancake", subheading
text "  Blueberry Delight  " — yields Success("Blueberry Delight",
"MARCH"). -/
theorem C4_witness :
    extract_outcome docMarch "MARCH" = .ok (.success "Blueberry Delight" "MARCH") := by
  have h := C4_success_postcondition docMarch "MARCH"
    ⟨"div", "av-subheading", "  Blueberry Delight  "⟩ (by decide) (by decide)
  have hs : pyStrip "  Blueberry Delight  " = "Blueberry Delight" := by decide
  rw [hs] at h
  exact h

/-- C5.  Structural-mismatch fatality: when some heading matches the period
token but no element matching the subheading marker is present, the
extractor terminates with the `AttributeError` raised by `None.text` — an
observable fatal error, so in particular neither a silently-empty Success
nor Stale. -/
theorem C5_structural_mismatch_fatal (doc : Document) (token : String)
    (hmatch : (findAllHeadings doc).any (matchesToken token) = true)
    (hsub : findSubheading doc = none) :
    extract_outcome doc token = .error .attributeError := by
  unfold extract_outcome
  rw [correctMonth_eq_any, hmatch, if_pos rfl, hsub]

/-- C5 witness: a page with a matching heading and no subheading div raises
the attribute error. -/
theorem C5_witness : extract_outcome docNoSub "MARCH" = .error .attributeError :=
  C5_structural_mismatch_fatal docNoSub "MARCH" (by decide) (by decide)

/-- C6.  Matching predicate: the month flag of the scan is set exactly when
some scanned heading's uppercase-normalized text contains the period token
as a contiguous substring; in particular heading "march pancake" matches
token "MARCH" (case-insensitivity), and heading "MARCH MADNESS" matches
token "MARCH" even though the token is a proper substring of a longer
phrase. -/
theorem C6_matching_predicate (doc : Document) (token : String) :
    (correctMonth doc token = true ↔
      ∃ x ∈ findAllHeadings doc,
        ∃ pre post, (pyUpper x.text).data = pre ++ token.data ++ post) ∧
    matchesToken "MARCH" ⟨"h2", "av-special-heading-tag ", "march pancake"⟩ = true ∧
    matchesToken "MARCH" ⟨"h2", "av-special-heading-tag ", "MARCH MADNESS"⟩ = true := by
  refine ⟨?_, by decide, by decide⟩
  rw [correctMonth_eq_any, List.any_eq_true]
  constructor
  · rintro ⟨x, hx, hpx⟩
    exact ⟨x, hx, (strContains_iff (pyUpper x.text) token).mp hpx⟩
  · rintro ⟨x, hx, hpx⟩
    exact ⟨x, hx, (strContains_iff (pyUpper x.text) token).mpr hpx⟩

/-- C6 witness: instantiating the equivalence on the spec's example page —
the flag is set there, so some heading's uppercased text contains the
token. -/
theorem C6_witness :
    ∃ x ∈ findAllHeadings docMarch,
      ∃ pre post, (pyUpper x.text).data = pre ++ "MARCH".data ++ post :=
  (C6_matching_predicate docMarch "MARCH").1.mp (by decide)

/-- C7.  Unrecognized intent fatality: for every IntentRequest whose intent
name is outside the fixed five-element set, the dispatcher `on_intent`
raises `ValueError` and produces no response envelope. -/
theorem C7_unrecognized_intent_fatal (name : String) (doc : Document)
    (token : String)
    (h : name ∉ ["AMAZON.HelpIntent", "AMAZON.CancelIntent", "AMAZON.StopIntent",
      "AboutGronskys", "PancakeOfTheMonth"]) :
    on_intent name doc token = .error .valueError := by
  simp only [List.mem_cons, List.not_mem_nil, or_false, not_or] at h
  obtain ⟨h1, h2, h3, h4, h5⟩ := h
  unfold on_intent
  simp [h1, h2, h3, h4, h5]

/-- C7 witness: a concrete unknown intent name raises the value error. -/
theorem C7_witness : on_intent "FooIntent" [] "MARCH" = .error .valueError :=
  C7_unrecognized_intent_fatal "FooIntent" [] "MARCH" (by decide)

/-- C9.  Determinism: the extraction outcome is a function of the document
content and the period token alone, so two invocations on identical input
yield the identical outcome. -/
theorem C9_determinism (doc : Document) (token : String)
    (o₁ o₂ : Except PyError Outcome)
    (h₁ : extract_outcome doc token = o₁) (h₂ : extract_outcome doc token = o₂) :
    o₁ = o₂ :=
  h₁.symm.trans h₂

/-- C9 witness: two runs on the stale example page agree. -/
theorem C9_witness :
    (Except.ok Outcome.stale : Except PyError Outcome) = Except.ok Outcome.stale :=
  C9_determinism docStale "MARCH" (Except.ok Outcome.stale)
    (Except.ok Outcome.stale) rfl rfl

/-- C10 counterexample: a SessionEndedRequest arriving on a NEW session does
not return None — it raises the NameError of `on_session_started` (the
`appToken` bug), so the claim quantified over every SessionEndedRequest
event is false on the code. -/
theorem C10_counterexample :
    lambda_handler eventEndedNew [] "MARCH" = .error .nameError ∧
    Except.error PyError.nameError ≠
      (Except.ok none : Except PyError (Option AlexaResponse)) := by
  refine ⟨lambda_handler_new_session eventEndedNew [] "MARCH" rfl, ?_⟩
  intro hcon
  cases hcon

/-- C10 amended: for every event whose session is NOT marked new,
`lambda_handler` returns no response envelope at all (Python `None`) both
for SessionEndedRequest and for any request type outside
\x7bLaunchRequest, IntentRequest, SessionEndedRequest\x7d, raising nothing —
in contrast to unrecognized intent names; new-session events instead abort
with the NameError before the dispatch. -/
theorem C10_amended_silent_none (event : Event) (doc : Document) (token : String)
    (hnew : event.session.new = false)
    (htype : event.request.type = "SessionEndedRequest" ∨
      (event.request.type ≠ "LaunchRequest" ∧
       event.request.type ≠ "IntentRequest" ∧
       event.request.type ≠ "SessionEndedRequest")) :
    lambda_handler event doc token = .ok none := by
  rw [lambda_handler_not_new event doc token hnew]
  rcases htype with hse | ⟨ha, hb, hc⟩
  · simp [hse, on_session_ended]
  · simp [ha, hb, hc]

/-- C10 witness for the amended statement: a session-end event on an
existing session returns None. -/
theorem C10_witness : lambda_handler eventEnded [] "MARCH" = .ok none :=
  C10_amended_silent_none eventEnded [] "MARCH" rfl (Or.inl rfl)

/-- C8.  Envelope invariant: every envelope produced by any handler path of
`lambda_handler` carries an empty session-attributes mapping, and its
shouldEndSession flag is true exactly on the cancel/stop path and false on
every other response-producing path (launch, help, AboutGronskys,
PancakeOfTheMonth). -/
theorem C8_envelope_invariant (event : Event) (doc : Document) (token : String)
    (r : AlexaResponse)
    (h : lambda_handler event doc token = .ok (some r)) :
    r.sessionAttributes = [] ∧
    (r.response.shouldEndSession = true ↔
      (event.request.type = "IntentRequest" ∧
        (event.request.intentName = "AMAZON.CancelIntent" ∨
         event.request.intentName = "AMAZON.StopIntent"))) := by
  cases hnew : event.session.new with
  | true =>
    rw [lambda_handler_new_session event doc token hnew] at h
    exact absurd h (by simp)
  | false =>
    rw [lambda_handler_not_new event doc token hnew] at h
    by_cases hL : event.request.type = "LaunchRequest"
    · rw [if_pos (by simp [hL])] at h
      obtain rfl : on_launch = r := by simpa using h
      refine ⟨rfl, ?_, ?_⟩
      · intro hx
        exact absurd hx (by decide)
      · rintro ⟨hIT, -⟩
        rw [hL] at hIT
        exact absurd hIT (by decide)
    · rw [if_neg (by simp [hL])] at h
      by_cases hI : event.request.type = "IntentRequest"
      · rw [if_pos (by simp [hI])] at h
        unfold on_intent at h
        by_cases hH : event.request.intentName = "AMAZON.HelpIntent"
        · rw [if_pos (by simp [hH])] at h
          obtain rfl : get_help_response = r := by simpa [Except.map] using h
          refine ⟨rfl, ?_, ?_⟩
          · intro hx
            exact absurd hx (by decide)
          · rintro ⟨-, hc | hc⟩ <;> rw [hH] at hc <;> exact absurd hc (by decide)
        · rw [if_neg (by simp [hH])] at h
          by_cases hC : event.request.intentName = "AMAZON.CancelIntent" ∨
              event.request.intentName = "AMAZON.StopIntent"
          · rw [if_pos (by rcases hC with hc | hc <;> simp [hc])] at h
            obtain rfl : handle_session_end_request = r := by
              simpa [Except.map] using h
            exact ⟨rfl, fun _ => ⟨hI, hC⟩, fun _ => rfl⟩
          · rw [if_neg (by simp only [Bool.or_eq_true, beq_iff_eq]; exact hC)] at h
            by_cases hA : event.request.intentName = "AboutGronskys"
            · rw [if_pos (by simp [hA])] at h
              obtain rfl : about_gronskys = r := by simpa [Except.map] using h
              refine ⟨rfl, ?_, ?_⟩
              · intro hx
                exact absurd hx (by decide)
              · rintro ⟨-, hCS⟩
                exact absurd hCS hC
            · rw [if_neg (by simp [hA])] at h
              by_cases hP : event.request.intentName = "PancakeOfTheMonth"
              · rw [if_pos (by simp [hP])] at h
                unfold pancake_of_the_month at h
                cases hx : extract_outcome doc token with
                | error e =>
                  rw [hx] at h
                  exact absurd h (by simp [Except.map])
                | ok o =>
                  rw [hx] at h
                  obtain rfl :
                      build_response []
                        (build_speechlet_response (renderOutcome o) false) = r := by
                    simpa [Except.map] using h
                  refine ⟨rfl, ?_, ?_⟩
                  · intro hx2
                    simp [build_response, build_speechlet_response] at hx2
                  · rintro ⟨-, hCS⟩
                    exact absurd hCS hC
              · rw [if_neg (by simp [hP])] at h
                exact absurd h (by simp [Except.map])
      · rw [if_neg (by simp [hI])] at h
        by_cases hS : event.request.type = "SessionEndedRequest"
        · rw [if_pos (by simp [hS])] at h
          exact absurd h (by simp [on_session_ended])
        · rw [if_neg (by simp [hS])] at h
          exact absurd h (by simp)

/-- C8 witness: a stop intent on an existing session produces the
session-end envelope, whose attributes are empty and whose end-session flag
is true, the request being on the cancel/stop path. -/
theorem C8_witness :
    handle_session_end_request.sessionAttributes = [] ∧
    (handle_session_end_request.response.shouldEndSession = true ↔
      ((Event.mk ⟨false, "sid-4", "app-4"⟩
          ⟨"IntentRequest", "rid-4", "AMAZON.StopIntent"⟩).request.type
            = "IntentRequest" ∧
        ((Event.mk ⟨false, "sid-4", "app-4"⟩
            ⟨"IntentRequest", "rid-4", "AMAZON.StopIntent"⟩).request.intentName
              = "AMAZON.CancelIntent" ∨
         (Event.mk ⟨false, "sid-4", "app-4"⟩
            ⟨"IntentRequest", "rid-4", "AMAZON.StopIntent"⟩).request.intentName
              = "AMAZON.StopIntent"))) :=
  C8_envelope_invariant
    (Event.mk ⟨false, "sid-4", "app-4"⟩ ⟨"IntentRequest", "rid-4", "AMAZON.StopIntent"⟩)
    [] "MARCH" handle_session_end_request rfl

end Gronskys
